import Mathlib

/-! # Verification of the `aws-sso-util` core

Shallow embedding of parts of the `aws-sso-util` repository:

* `lib/aws_sso_lib/format.py` (account-id normalization),
* `lib/aws_sso_lib/assignments.py` (the assignment resolver's principal iterator),
* `lib/aws_sso_lib/config.py` (session scanning and mismatch detection),
* `lib/aws_sso_lib/vendored_botocore/utils.py` (the SSO token engine),
* `cli/src/aws_sso_util/cfn_lib/resources.py` (assignment fingerprints and
  child-stack allocation),
* `cli/src/aws_sso_util/cfn_lib/templates.py` (DependsOn throttling, sharding),
* `cli/src/aws_sso_util/cfn_lib/config.py` (generation config and validation).

Machine integers do not occur (Python has arbitrary-precision ints); byte
strings are `List Nat` with each entry `< 256`; fallible code returns
`Except`.  The MD5 and SHA-1 functions used by the code via `hashlib` are
implemented here in full (RFC 1321 / RFC 3174) so that fingerprints and cache
keys are concrete computable values.
-/

set_option maxRecDepth 100000

namespace AwsSsoUtil

/-! ## Bytes, UTF-8, hex -/

/-- `2 ^ 32`, the modulus for 32-bit words. -/
def M32 : Nat := 4294967296

/-- Left-rotation of a 32-bit word. -/
def rotl32 (x n : Nat) : Nat :=
  (((x <<< n) % M32) ||| (x >>> (32 - n))) % M32

/-- Little-endian byte rendering of `n` on `count` bytes. -/
def leBytes (n count : Nat) : List Nat :=
  (List.range count).map (fun i => (n >>> (8 * i)) % 256)

/-- Big-endian byte rendering of `n` on `count` bytes. -/
def beBytes (n count : Nat) : List Nat :=
  (List.range count).map (fun i => (n >>> (8 * (count - 1 - i))) % 256)

/-- Big-endian integer value of a byte string (Python
`int.from_bytes(b, "big")`). -/
def bytesToNatBE (bs : List Nat) : Nat :=
  bs.foldl (fun acc b => acc * 256 + b) 0

/-- UTF-8 encoding of one code point. -/
def utf8EncodeChar (n : Nat) : List Nat :=
  if n < 0x80 then [n]
  else if n < 0x800 then [0xC0 ||| (n >>> 6), 0x80 ||| (n &&& 0x3F)]
  else if n < 0x10000 then
    [0xE0 ||| (n >>> 12), 0x80 ||| ((n >>> 6) &&& 0x3F), 0x80 ||| (n &&& 0x3F)]
  else
    [0xF0 ||| (n >>> 18), 0x80 ||| ((n >>> 12) &&& 0x3F),
     0x80 ||| ((n >>> 6) &&& 0x3F), 0x80 ||| (n &&& 0x3F)]

/-- UTF-8 encoding of a string (Python `str.encode("utf-8")`). -/
def strBytes (s : String) : List Nat :=
  (s.toList.map (fun c => utf8EncodeChar c.toNat)).flatten

/-- Python `s[:n]`: the first `n` characters. -/
def strTake (s : String) (n : Nat) : String :=
  String.mk (s.toList.take n)

/-- ASCII upper-casing of one character. -/
def charUpperAscii (c : Char) : Char :=
  if 'a' ≤ c ∧ c ≤ 'z' then Char.ofNat (c.toNat - 32) else c

/-- Python `s.upper()` for ASCII strings (hex digests here are ASCII). -/
def strUpper (s : String) : String :=
  String.mk (s.toList.map charUpperAscii)

/-- Lower-case hex digit. -/
def hexDigitChar (n : Nat) : Char :=
  if n < 10 then Char.ofNat (48 + n) else Char.ofNat (87 + n)

/-- Lower-case hex rendering of a byte string (Python `.hexdigest()` output
format). -/
def bytesToHex (bs : List Nat) : String :=
  String.mk (bs.foldr (fun b acc => hexDigitChar (b / 16) :: hexDigitChar (b % 16) :: acc) [])

/-! ## MD5 (RFC 1321), as used by `hashlib.md5` -/

/-- The 64 MD5 round constants `⌊|sin(i+1)| · 2³²⌋`. -/
def md5K : List Nat := [
  0xd76aa478, 0xe8c7b756, 0x242070db, 0xc1bdceee, 0xf57c0faf, 0x4787c62a, 0xa8304613, 0xfd469501,
  0x698098d8, 0x8b44f7af, 0xffff5bb1, 0x895cd7be, 0x6b901122, 0xfd987193, 0xa679438e, 0x49b40821,
  0xf61e2562, 0xc040b340, 0x265e5a51, 0xe9b6c7aa, 0xd62f105d, 0x02441453, 0xd8a1e681, 0xe7d3fbc8,
  0x21e1cde6, 0xc33707d6, 0xf4d50d87, 0x455a14ed, 0xa9e3e905, 0xfcefa3f8, 0x676f02d9, 0x8d2a4c8a,
  0xfffa3942, 0x8771f681, 0x6d9d6122, 0xfde5380c, 0xa4beea44, 0x4bdecfa9, 0xf6bb4b60, 0xbebfbc70,
  0x289b7ec6, 0xeaa127fa, 0xd4ef3085, 0x04881d05, 0xd9d4d039, 0xe6db99e5, 0x1fa27cf8, 0xc4ac5665,
  0xf4292244, 0x432aff97, 0xab9423a7, 0xfc93a039, 0x655b59c3, 0x8f0ccc92, 0xffeff47d, 0x85845dd1,
  0x6fa87e4f, 0xfe2ce6e0, 0xa3014314, 0x4e0811a1, 0xf7537e82, 0xbd3af235, 0x2ad7d2bb, 0xeb86d391]

/-- The 64 MD5 per-round left-rotation amounts. -/
def md5S : List Nat := [
  7, 12, 17, 22, 7, 12, 17, 22, 7, 12, 17, 22, 7, 12, 17, 22,
  5, 9, 14, 20, 5, 9, 14, 20, 5, 9, 14, 20, 5, 9, 14, 20,
  4, 11, 16, 23, 4, 11, 16, 23, 4, 11, 16, 23, 4, 11, 16, 23,
  6, 10, 15, 21, 6, 10, 15, 21, 6, 10, 15, 21, 6, 10, 15, 21]

/-- Four 32-bit state words. -/
structure MD5State where
  a : Nat
  b : Nat
  c : Nat
  d : Nat

/-- MD5 initial state. -/
def md5Init : MD5State := ⟨0x67452301, 0xefcdab89, 0x98badcfe, 0x10325476⟩

/-- MD5 padding: `0x80`, zeros to 56 mod 64, then the 64-bit little-endian
bit length. -/
def md5Pad (msg : List Nat) : List Nat :=
  let len := msg.length
  let zeros := (64 + 56 - ((len + 1) % 64)) % 64
  msg ++ [0x80] ++ List.replicate zeros 0 ++ leBytes ((len * 8) % (2 ^ 64)) 8

/-- Split a list into consecutive 64-element chunks (length assumed to be a
multiple of 64). -/
def chunks64 (l : List Nat) : List (List Nat) :=
  (List.range (l.length / 64)).map (fun i => (l.drop (64 * i)).take 64)

/-- Little-endian 32-bit word `g` of a 64-byte chunk. -/
def leWord (chunk : List Nat) (g : Nat) : Nat :=
  chunk.getD (4 * g) 0 + chunk.getD (4 * g + 1) 0 * 256 +
    chunk.getD (4 * g + 2) 0 * 65536 + chunk.getD (4 * g + 3) 0 * 16777216

/-- The MD5 round mixing function for round `i`. -/
def md5F (i b c d : Nat) : Nat :=
  if i < 16 then (b &&& c) ||| ((b ^^^ 0xffffffff) &&& d)
  else if i < 32 then (d &&& b) ||| ((d ^^^ 0xffffffff) &&& c)
  else if i < 48 then b ^^^ c ^^^ d
  else c ^^^ (b ||| (d ^^^ 0xffffffff))

/-- The MD5 message-word index for round `i`. -/
def md5G (i : Nat) : Nat :=
  if i < 16 then i
  else if i < 32 then (5 * i + 1) % 16
  else if i < 48 then (3 * i + 5) % 16
  else (7 * i) % 16

/-- One MD5 round. -/
def md5Round (m : Nat → Nat) (st : MD5State) (i : Nat) : MD5State :=
  let f := (md5F i st.b st.c st.d + st.a + md5K.getD i 0 + m (md5G i)) % M32
  ⟨st.d, (st.b + rotl32 f (md5S.getD i 0)) % M32, st.b, st.c⟩

/-- Process one 64-byte chunk. -/
def md5ProcessChunk (st : MD5State) (chunk : List Nat) : MD5State :=
  let st2 := (List.range 64).foldl (md5Round (leWord chunk)) st
  ⟨(st.a + st2.a) % M32, (st.b + st2.b) % M32, (st.c + st2.c) % M32, (st.d + st2.d) % M32⟩

/-- MD5 digest of a byte string, as a 16-byte string
(`hashlib.md5(msg).digest()`). -/
def md5Bytes (msg : List Nat) : List Nat :=
  let st := (chunks64 (md5Pad msg)).foldl md5ProcessChunk md5Init
  leBytes st.a 4 ++ leBytes st.b 4 ++ leBytes st.c 4 ++ leBytes st.d 4

/-- MD5 hex digest of a byte string (`hashlib.md5(msg).hexdigest()`). -/
def md5Hex (msg : List Nat) : String :=
  bytesToHex (md5Bytes msg)

/-! ## SHA-1 (RFC 3174), as used by `hashlib.sha1` -/

/-- Five 32-bit state words. -/
structure SHA1State where
  h0 : Nat
  h1 : Nat
  h2 : Nat
  h3 : Nat
  h4 : Nat

/-- SHA-1 initial state. -/
def sha1Init : SHA1State := ⟨0x67452301, 0xEFCDAB89, 0x98BADCFE, 0x10325476, 0xC3D2E1F0⟩

/-- SHA-1 padding: like MD5 but the bit length is appended big-endian. -/
def sha1Pad (msg : List Nat) : List Nat :=
  let len := msg.length
  let zeros := (64 + 56 - ((len + 1) % 64)) % 64
  msg ++ [0x80] ++ List.replicate zeros 0 ++ beBytes ((len * 8) % (2 ^ 64)) 8

/-- Big-endian 32-bit word `g` of a 64-byte chunk. -/
def beWord (chunk : List Nat) (g : Nat) : Nat :=
  chunk.getD (4 * g) 0 * 16777216 + chunk.getD (4 * g + 1) 0 * 65536 +
    chunk.getD (4 * g + 2) 0 * 256 + chunk.getD (4 * g + 3) 0

/-- The 80-entry SHA-1 message schedule of a chunk. -/
def sha1Schedule (chunk : List Nat) : List Nat :=
  let w16 := (List.range 16).map (beWord chunk)
  (List.range 64).foldl
    (fun ws _ =>
      let n := ws.length
      ws ++ [rotl32 (ws.getD (n - 3) 0 ^^^ ws.getD (n - 8) 0 ^^^
                      ws.getD (n - 14) 0 ^^^ ws.getD (n - 16) 0) 1])
    w16

/-- SHA-1 round function and constant for round `i`. -/
def sha1FK (i b c d : Nat) : Nat × Nat :=
  if i < 20 then ((b &&& c) ||| ((b ^^^ 0xffffffff) &&& d), 0x5A827999)
  else if i < 40 then (b ^^^ c ^^^ d, 0x6ED9EBA1)
  else if i < 60 then ((b &&& c) ||| (b &&& d) ||| (c &&& d), 0x8F1BBCDC)
  else (b ^^^ c ^^^ d, 0xCA62C1D6)

/-- One SHA-1 round; the state quintuple is `(a, b, c, d, e)`. -/
def sha1Round (w : List Nat) (st : SHA1State) (i : Nat) : SHA1State :=
  let fk := sha1FK i st.h1 st.h2 st.h3
  let temp := (rotl32 st.h0 5 + fk.1 + st.h4 + fk.2 + w.getD i 0) % M32
  ⟨temp, st.h0, rotl32 st.h1 30, st.h2, st.h3⟩

/-- Process one 64-byte chunk. -/
def sha1ProcessChunk (st : SHA1State) (chunk : List Nat) : SHA1State :=
  let w := sha1Schedule chunk
  let st2 := (List.range 80).foldl (sha1Round w) st
  ⟨(st.h0 + st2.h0) % M32, (st.h1 + st2.h1) % M32, (st.h2 + st2.h2) % M32,
   (st.h3 + st2.h3) % M32, (st.h4 + st2.h4) % M32⟩

/-- SHA-1 digest of a byte string, as a 20-byte string. -/
def sha1Bytes (msg : List Nat) : List Nat :=
  let st := (chunks64 (sha1Pad msg)).foldl sha1ProcessChunk sha1Init
  beBytes st.h0 4 ++ beBytes st.h1 4 ++ beBytes st.h2 4 ++ beBytes st.h3 4 ++ beBytes st.h4 4

/-- SHA-1 hex digest of a byte string (`hashlib.sha1(msg).hexdigest()`). -/
def sha1Hex (msg : List Nat) : String :=
  bytesToHex (sha1Bytes msg)

/-! ## `lib/aws_sso_lib/format.py`

`format_account_id` accepts an account id given as a number or as a string.
A number is first rendered as `str(int(account_id))`; a string shorter than
12 characters is left-padded with `"0"` to width 12.  No further validation
happens.
-/

/-- Python's decimal rendering of a natural number, digit by digit
(`str(n)` for `n ≥ 0`), with explicit fuel for structural recursion; the
fuel is always called with `n + 1 > n`, which is enough. -/
def decDigitsFuel : Nat → Nat → List Char
  | 0, _ => []
  | fuel + 1, n =>
    if n < 10 then [Nat.digitChar n]
    else decDigitsFuel fuel (n / 10) ++ [Nat.digitChar (n % 10)]

/-- `str(n)` for a natural number. -/
def pyStrOfNat (n : Nat) : String :=
  String.mk (decDigitsFuel (n + 1) n)

/-- `str(i)` for a Python integer (a `-` sign followed by the digits when
negative). -/
def pyStrOfInt (i : Int) : String :=
  if i < 0 then "-" ++ pyStrOfNat i.natAbs else pyStrOfNat i.toNat

/-- Python `s.rjust(w, "0")`. -/
def rjustZero (w : Nat) (s : String) : String :=
  if s.length < w then String.mk (List.replicate (w - s.length) '0') ++ s else s

/-- An account-id input: `format_account_id` is called either with a number
or with a string. -/
inductive AccountIdInput where
  | num (n : Int)
  | str (s : String)
deriving DecidableEq, Repr

/-- `format_account_id` from `lib/aws_sso_lib/format.py`: a number becomes
`str(int(account_id))`; then any string shorter than 12 characters is
right-justified to width 12 with `"0"`. -/
def format_account_id (x : AccountIdInput) : String :=
  let s := match x with
    | .num n => pyStrOfInt n
    | .str s => s
  if s.length < 12 then rjustZero 12 s else s

/-- The spec's normalized account-id shape: exactly 12 decimal digits
(`^[0-9]{12}$`). -/
def isAccountIdFormat (s : String) : Bool :=
  s.length == 12 && s.toList.all (fun c => c.isDigit)

/-! ## `lib/aws_sso_lib/assignments.py`: the principal iterator

`_get_principal_iterator` pages through `list_account_assignments`;
for each returned assignment `(PrincipalType, PrincipalId)` it runs, when the
user supplied `context.principal` (a list of `(type-or-None, id)` pairs):

```python
for principal in context.principal:
    type_matches = (principal[0] is None or principal[0] != principal_type)
    if type_matches and principal[1] == principal_id:
        break
else:
    continue
```

i.e. the assignment survives the user filter exactly when some entry of the
list passes that test.  An empty `context.principal` list is falsy, so no
filtering happens.  The name-resolution calls and `principal_filter` that
follow are external collaborators (none supplied here).
-/

/-- One user-supplied principal entry: `(type-or-None, id)`; bare ids
propagate with type `None`. -/
abbrev PrincipalEntry := Option String × String

/-- The per-entry test from the loop body of `_get_principal_iterator`, as
written: `type_matches = (principal[0] is None or principal[0] !=
principal_type)` and then `type_matches and principal[1] == principal_id`.
Note the `!=` in `type_matches`. -/
def principalEntryTest (entry : PrincipalEntry) (ptype pid : String) : Bool :=
  (entry.1.isNone || !(entry.1 == some ptype)) && entry.2 == pid

/-- Whether a listed assignment's principal survives the user-supplied
principal list (the `for … break / else: continue` shape: survive iff some
entry passes the test). -/
def principalAcceptedByCode (principals : List PrincipalEntry)
    (ptype pid : String) : Bool :=
  principals.any (fun p => principalEntryTest p ptype pid)

/-- The principal iterator restricted to its user-filter stage: from the
principals listed by `list_account_assignments` (as `(PrincipalType,
PrincipalId)` pairs, in paginator order), keep those the filter accepts; an
empty user list means no filtering (`if context.principal:`). -/
def principalIterator (principals : List PrincipalEntry)
    (listed : List (String × String)) : List (String × String) :=
  listed.filter (fun a => principals.isEmpty || principalAcceptedByCode principals a.1 a.2)

/-! ## `cli/src/aws_sso_util/cfn_lib/resources.py`

The planner's resource model.  Components are modeled in their string form
(`utils.get_hash_key` of a plain string is just `value.encode("utf-8")`;
CloudFormation tag objects are out of scope for these claims — ids and ARNs
here are literal strings).

One Python detail is preserved faithfully: `Principal.hash_key` and
`Target.hash_key` interpolate the *bytes* returned by
`utils.get_hash_key(self.id)` into an f-string, which renders the Python
`repr` of the bytes object, e.g. `b'p-123'`.  For printable ASCII ids without
quotes or backslashes (the shapes the claims use) that repr is
`b` + `'` + id + `'`.
-/

/-- A single quote character, as a string. -/
def sq : String := "\x27"

/-- The Python `repr` of `s.encode("utf-8")` for printable ASCII `s` with no
quote or backslash: `b'…'`. -/
def pyBytesRepr (s : String) : String := "b" ++ sq ++ s ++ sq

/-- `utils.get_hash_key` on a string value: `value.encode("utf-8")`. -/
def get_hash_key (s : String) : List Nat := strBytes s

/-- A planner principal: `(type ∈ {"GROUP", "USER"}, id)`. -/
structure PrincipalR where
  ptype : String
  pid : String
deriving DecidableEq, Repr

/-- `Principal.hash_key`:
`f"{self.type.value}:{utils.get_hash_key(self.id)}".encode("utf-8")`. -/
def PrincipalR.hash_key (p : PrincipalR) : List Nat :=
  strBytes (p.ptype ++ ":" ++ pyBytesRepr p.pid)

/-- A planner target: `(type ∈ {"AWS_OU", "AWS_ACCOUNT"}, id, name?,
source_ou?)`. -/
structure TargetR where
  ttype : String
  tid : String
  tname : Option String := none
  source_ou : Option String := none
deriving DecidableEq, Repr

/-- `Target.hash_key`:
`f"{self.type.value}:{utils.get_hash_key(self.id)}".encode("utf-8")`. -/
def TargetR.hash_key (t : TargetR) : List Nat :=
  strBytes (t.ttype ++ ":" ++ pyBytesRepr t.tid)

/-- A planner assignment (`resources.Assignment`): instance ARN, principal,
permission set (modeled by its ARN string; `PermissionSet.hash_key` is
`utils.get_hash_key(self.get_arn())`), target, and the optional resource-name
prefix handed down from the config. -/
structure AssignmentR where
  instanceArn : String
  principal : PrincipalR
  permissionSetArn : String
  target : TargetR
  rnPfx : Option String := none
deriving DecidableEq, Repr

/-- An `hashlib.md5()` hasher object, modeled by the byte string fed to it so
far. -/
abbrev Hasher := List Nat

/-- A fresh hasher (`hashlib.md5()`). -/
def hasherNew : Hasher := []

/-- `hasher.update(bs)`. -/
def hasherUpdate (h : Hasher) (bs : List Nat) : Hasher := h ++ bs

/-- `hasher.hexdigest()`. -/
def hasherHexdigest (h : Hasher) : String := md5Hex h

/-- `hasher.digest()`. -/
def hasherDigest (h : Hasher) : List Nat := md5Bytes h

/-- `Assignment.get_hash`: an MD5 hasher updated in turn with the hash keys
of the instance, the principal, the permission set and the target. -/
def AssignmentR.get_hash (a : AssignmentR) : Hasher :=
  hasherUpdate
    (hasherUpdate
      (hasherUpdate
        (hasherUpdate hasherNew (get_hash_key a.instanceArn))
        a.principal.hash_key)
      (get_hash_key a.permissionSetArn))
    a.target.hash_key

/-- `Assignment.RESOURCE_NAME_PREFIX`. -/
def assignmentNameTag : String := "Assignment"

/-- `Assignment.get_resource_name`:
`f"{prefix}Assignment{hasher.hexdigest()[:6].upper()}"`. -/
def AssignmentR.get_resource_name (a : AssignmentR) : String :=
  (a.rnPfx.getD "") ++ assignmentNameTag ++
    strUpper (strTake (hasherHexdigest a.get_hash) 6)

/-- The chunk index used by `AssignmentResources.allocate`:
`int.from_bytes(hash.digest(), "big") % num`. -/
def AssignmentR.chunkIndex (a : AssignmentR) (num : Nat) : Nat :=
  bytesToNatBE (hasherDigest a.get_hash) % num

/-- `AssignmentResources.allocate(num)`: start from `num` empty chunks and
append each assignment, in input order, to chunk `chunkIndex`. -/
def allocate (asgns : List AssignmentR) (num : Nat) : List (List AssignmentR) :=
  asgns.foldl
    (fun cs a =>
      let ind := a.chunkIndex num
      cs.set ind (cs.getD ind [] ++ [a]))
    (List.replicate num [])

/-- The runtime variants of a planner `PermissionSet` value
(`PermissionSet._Type`). -/
inductive PSType where
  | arn
  | shortArn
  | psid
  | ref
  | resource
deriving DecidableEq, Repr

/-- A planner permission set, reduced to its variant and name; only
`RESOURCE`-form permission sets contribute a template resource. -/
structure PermSetR where
  pstype : PSType
  psname : String
deriving DecidableEq, Repr

/-- `PermissionSetResources.num_resources`: the number of `RESOURCE`-form
entries. -/
def psNumResources (psets : List PermSetR) : Nat :=
  (psets.filter (fun p => p.pstype == PSType.resource)).length

/-! ## `cli/src/aws_sso_util/cfn_lib/templates.py`

`add_assignments_to_template` walks the assignments in order, building the
list `assignment_resources` of `(resource_name, resource)` pairs; when the
effective `max_concurrent_assignments` window `W` is truthy and at least `W`
pairs have been built, the new resource depends on the pair at index
`len(assignment_resources) - W`.

`Assignment.get_resource` is modeled by the fields the claims are about: the
`Properties` values and `DependsOn` (set only when `depends_on` is truthy,
i.e. a non-empty string).  `Metadata` from the optional name fetchers
(external collaborators, none supplied) is omitted.
-/

/-- The emitted `AWS::SSO::Assignment` resource. -/
structure AssignmentResource where
  dependsOn : Option String
  instanceArn : String
  principalType : String
  principalId : String
  permissionSetArn : String
  targetType : String
  targetId : String
deriving DecidableEq, Repr

/-- `Assignment.get_resource(child_stack, depends_on)` (the `child_stack`
flag only affects how a `RESOURCE`-form permission-set ARN is rendered, which
string-ARN assignments do not exercise): `if depends_on:` keeps `DependsOn`
only for a truthy (non-empty) string. -/
def AssignmentR.get_resource (a : AssignmentR) (dependsOn : Option String) :
    AssignmentResource where
  dependsOn := match dependsOn with
    | none => none
    | some s => if s = "" then none else some s
  instanceArn := a.instanceArn
  principalType := a.principal.ptype
  principalId := a.principal.pid
  permissionSetArn := a.permissionSetArn
  targetType := a.target.ttype
  targetId := a.target.tid

/-- A default `(name, resource)` pair, for total indexing. -/
def dfltPair : String × AssignmentResource :=
  ("", ⟨none, "", "", "", "", "", ""⟩)

/-- A default assignment, for total indexing. -/
def dfltAsgn : AssignmentR :=
  ⟨"", ⟨"", ""⟩, "", ⟨"", "", none, none⟩, none⟩

/-- The loop of `add_assignments_to_template`, with `acc` the
`assignment_resources` list built so far. -/
def addAssignAux (W : Nat) (acc : List (String × AssignmentResource)) :
    List AssignmentR → List (String × AssignmentResource)
  | [] => acc
  | a :: rest =>
    addAssignAux W
      (acc ++ [(a.get_resource_name, a.get_resource
        (if W ≠ 0 ∧ W ≤ acc.length
         then some (acc.getD (acc.length - W) dfltPair).1
         else none))])
      rest

/-- `add_assignments_to_template`: the ordered `(resource_name, resource)`
pairs appended to the template's `Resources` map, for a window of `W`
concurrent assignments. -/
def add_assignments_to_template (asgns : List AssignmentR) (W : Nat) :
    List (String × AssignmentResource) :=
  addAssignAux W [] asgns

/-- The fields of `ParentTemplate` that `resolve_templates` constructs:
parent-level assignments, the permission sets (always kept in the parent),
and one `ChildTemplate` (an assignment list) per child stack. -/
structure ParentTemplateR where
  assignments : List AssignmentR
  permission_sets : List PermSetR
  child_templates : List (List AssignmentR)
deriving DecidableEq, Repr

/-- `resolve_templates`: decide between inline emission and sharding into
`num_child_stacks` children, then check that the permission sets fit into the
parent.  `ValueError`s become `Except.error`. -/
def resolve_templates (asgns : List AssignmentR) (psets : List PermSetR)
    (numChildStacks : Option Nat) (maxResourcesPerTemplate : Nat)
    (numParentResources : Nat := 0) : Except String ParentTemplateR :=
  let numResourcesToAdd := asgns.length + psNumResources psets
  let tooMany := numResourcesToAdd + numParentResources > maxResourcesPerTemplate
  let branch : Except String (List AssignmentR × List (List AssignmentR)) :=
    match numChildStacks with
    | none =>
      if tooMany then .error "Too many assignments to fit into template, specify a number of child stacks"
      else .ok (asgns, [])
    | some 0 =>
      if tooMany then .error "Too many resources to fit into template"
      else .ok (asgns, [])
    | some (n + 1) =>
      if (n + 1) * maxResourcesPerTemplate < asgns.length
      then .error "Too many assignments to fit into child templates"
      else .ok ([], allocate asgns (n + 1))
  match branch with
  | .error e => .error e
  | .ok (parentAssignments, childTemplates) =>
    if psNumResources psets ≠ 0 ∧
        psNumResources psets + numParentResources > maxResourcesPerTemplate
    then .error "Too many permission sets to fit into template"
    else .ok ⟨parentAssignments, psets, childTemplates⟩

/-! ## `cli/src/aws_sso_util/cfn_lib/config.py`

`GenerationConfig` keeps raw, possibly-unset values in private fields and
exposes effective values through properties; `Config` collects principals,
permission sets and targets; `validate_config` checks the loaded config.
Values are Python ints, so `Int` here; unset is `none`.
-/

/-- The private fields of a `GenerationConfig` (`ids` and the name fetchers
are external collaborators and do not affect the claims). -/
structure GenerationConfigState where
  maxResourcesPerTemplateRaw : Option Int
  maxConcurrentAssignmentsRaw : Option Int
  maxAssignmentsAllocationRaw : Option Int
  numChildStacksRaw : Option Int
  defaultSessionDurationRaw : Option String
deriving DecidableEq, Repr

/-- A fresh `GenerationConfig()`: every private field `None`. -/
def genConfigInit : GenerationConfigState :=
  ⟨none, none, none, none, none⟩

/-- `GenerationConfig.DEFAULT_MAX_RESOURCES_PER_TEMPLATE`. -/
def DEFAULT_MAX_RESOURCES_PER_TEMPLATE : Int := 500

/-- `GenerationConfig.DEFAULT_MAX_CONCURRENT_ASSIGNMENTS`. -/
def DEFAULT_MAX_CONCURRENT_ASSIGNMENTS : Int := 20

/-- The `max_resources_per_template` property: the default when the raw
value is `None` or `< 1`. -/
def GenerationConfigState.max_resources_per_template
    (s : GenerationConfigState) : Int :=
  match s.maxResourcesPerTemplateRaw with
  | none => DEFAULT_MAX_RESOURCES_PER_TEMPLATE
  | some v => if v < 1 then DEFAULT_MAX_RESOURCES_PER_TEMPLATE else v

/-- The `max_concurrent_assignments` property: the default when the raw
value is `None` or `< 1`. -/
def GenerationConfigState.max_concurrent_assignments
    (s : GenerationConfigState) : Int :=
  match s.maxConcurrentAssignmentsRaw with
  | none => DEFAULT_MAX_CONCURRENT_ASSIGNMENTS
  | some v => if v < 1 then DEFAULT_MAX_CONCURRENT_ASSIGNMENTS else v

/-- Integer ceiling division for nonnegative values (`math.ceil(a / b)`). -/
def ceilDiv (a b : Int) : Int := (a + b - 1) / b

/-- The `num_child_stacks` property. -/
def GenerationConfigState.num_child_stacks
    (s : GenerationConfigState) : Option Int :=
  let numStacks1 : Option Int :=
    match s.maxAssignmentsAllocationRaw with
    | some v => if v ≥ 1 then some (ceilDiv v s.max_resources_per_template) else none
    | none => none
  let numStacks2 : Option Int :=
    match s.numChildStacksRaw with
    | some v => if v ≥ 0 then some v else none
    | none => none
  match numStacks1, numStacks2 with
  | some a, some b => some (max a b)
  | some a, none => some a
  | none, some b => some b
  | none, none => none

/-- Python truthiness of an optional string (`None` and `""` are falsy). -/
def optStrTruthy : Option String → Bool
  | none => false
  | some s => !s.isEmpty

/-- `GenerationConfig.set(...)`: each raw field is replaced when it is still
`None`, or when a new value was supplied and `overwrite` is set
(`default_session_duration` only when the new value is truthy). -/
def GenerationConfigState.set (s : GenerationConfigState)
    (mrpt mca maa ncs : Option Int) (dsd : Option String)
    (overwrite : Bool) : GenerationConfigState where
  maxResourcesPerTemplateRaw :=
    if s.maxResourcesPerTemplateRaw.isNone || (mrpt.isSome && overwrite)
    then mrpt else s.maxResourcesPerTemplateRaw
  maxConcurrentAssignmentsRaw :=
    if s.maxConcurrentAssignmentsRaw.isNone || (mca.isSome && overwrite)
    then mca else s.maxConcurrentAssignmentsRaw
  maxAssignmentsAllocationRaw :=
    if s.maxAssignmentsAllocationRaw.isNone || (maa.isSome && overwrite)
    then maa else s.maxAssignmentsAllocationRaw
  numChildStacksRaw :=
    if s.numChildStacksRaw.isNone || (ncs.isSome && overwrite)
    then ncs else s.numChildStacksRaw
  defaultSessionDurationRaw :=
    if optStrTruthy dsd && (s.defaultSessionDurationRaw.isNone || overwrite)
    then dsd else s.defaultSessionDurationRaw

/-- One mutation of a `GenerationConfig`: `set(...)` called directly, or via
`load(data, overwrite)` (`load` extracts the optional int values from the
data mapping and calls `set` with them, so it is the same state transition).
-/
structure GCOp where
  mrpt : Option Int
  mca : Option Int
  maa : Option Int
  ncs : Option Int
  dsd : Option String
  overwrite : Bool
deriving DecidableEq, Repr

/-- Apply one `set`/`load` operation. -/
def applyGCOp (s : GenerationConfigState) (op : GCOp) : GenerationConfigState :=
  s.set op.mrpt op.mca op.maa op.ncs op.dsd op.overwrite

/-- The `Config` fields that `validate_config` inspects, as collected by
`Config.load` / `Config.load_resource_properties` (which appends OU targets to
`ous`, OU targets marked `Recursive` to `recursive_ous`, and account targets
to `accounts`). -/
structure CfnConfig where
  instanceArn : Option String
  groups : List String
  users : List String
  permission_sets : List String
  ous : List String
  recursive_ous : List String
  accounts : List String
deriving DecidableEq, Repr

/-- The `Ids` discovery object, reduced to the instance ARN it reports. -/
structure IdsT where
  instance_arn : String
deriving DecidableEq, Repr

/-- `validate_config(config, ids)`: replace a falsy instance with
`ids.instance_arn`, then require principals, permission sets, and targets —
where the target check, as written, is `if not (config.ous or
config.accounts)`, i.e. it does not consult `config.recursive_ous`. -/
def validate_config (config : CfnConfig) (ids : IdsT) :
    Except String CfnConfig :=
  let config :=
    if optStrTruthy config.instanceArn then config
    else { config with instanceArn := some ids.instance_arn }
  if config.groups.isEmpty && config.users.isEmpty then
    .error "No principals specified"
  else if config.permission_sets.isEmpty then
    .error "No permission sets specified"
  else if config.ous.isEmpty && config.accounts.isEmpty then
    .error "No targets specified"
  else .ok config

/-- The target-collection loop of `get_resources_from_config`
(`cfn_lib/resources.py`): one `AWS_ACCOUNT` target per account fetched from
each entry of `ous` (non-recursively) and of `recursive_ous` (recursively),
then one per literal account.  `ou_fetcher` is the external OU traversal;
it returns account ids. -/
def configTargets (config : CfnConfig) (ouFetcher : String → Bool → List String) :
    List TargetR :=
  (config.ous.map (fun ou =>
      (ouFetcher ou false).map (fun acct => TargetR.mk "AWS_ACCOUNT" acct none (some ou)))).flatten
    ++ (config.recursive_ous.map (fun ou =>
      (ouFetcher ou true).map (fun acct => TargetR.mk "AWS_ACCOUNT" acct none (some ou)))).flatten
    ++ config.accounts.map (fun acct => TargetR.mk "AWS_ACCOUNT" acct none none)

/-! ## Python exceptions

The exceptions the embedded code can raise.  `nameError` is what Python
raises when a statement reads a local variable that was never bound;
`attributeError` when an attribute lookup fails; both carry the offending
name. -/

inductive PyError where
  | nameError (n : String)
  | keyError (k : String)
  | valueError (msg : String)
  | attributeError (n : String)
  | typeError (msg : String)
  | pendingAuthorizationExpired
  | configProfileError (msg : String)
  | configSessionError (msg : String)
  | inlineSessionError (msg : String)
  | mismatchedSessionError (msg : String)
deriving DecidableEq, Repr

/-! ## `lib/aws_sso_lib/vendored_botocore/utils.py`: the token engine

`SSOTokenFetcher` drives the OAuth 2.0 device-authorization flow.  The HTTP
client, the clock and `time.sleep` are external collaborators: the responses
of successive `create_token` calls are supplied as a script (one entry per
call the engine makes), sleeps and the on-pending-authorization callback are
recorded as events, and token expiry checks are a supplied predicate.
`register_client` / `start_device_authorization` contribute only the
polling interval, supplied directly. -/

/-- `SSOTokenFetcher._SLOW_DOWN_DELAY` (the RFC's extra 5 seconds). -/
def SLOW_DOWN_DELAY : Nat := 5

/-- `SSOTokenFetcher._DEFAULT_INTERVAL`. -/
def DEFAULT_INTERVAL : Nat := 5

/-- The token record assembled by `_create_token_attempt` on success (the
clock-derived fields `expiresAt`/`receivedAt` and the cached registration
fields are external and omitted). -/
structure TokenT where
  startUrl : String
  region : String
  accessToken : String
  refreshToken : Option String := none
deriving DecidableEq, Repr

/-- The outcome of one `create_token` call. -/
inductive CreateTokenResult where
  | success (accessToken : String) (refreshToken : Option String := none)
  | authorizationPending
  | slowDown
  | expiredToken
deriving DecidableEq, Repr

/-- An observable side effect of the polling engine. -/
inductive PollEvent where
  | sleep (seconds : Nat)
  | pendingCallback
deriving DecidableEq, Repr

/-- `_create_token_attempt`: on success build the token; on `SlowDown` add
`_SLOW_DOWN_DELAY` to the interval; on `AuthorizationPending` leave it; on
`ExpiredToken` raise `PendingAuthorizationExpiredError`.  Returns the
(possibly updated) interval and the token, if any. -/
def createTokenAttempt (startUrl region : String) (interval : Nat)
    (r : CreateTokenResult) : Except PyError (Nat × Option TokenT) :=
  match r with
  | .success tok rtok => .ok (interval, some ⟨startUrl, region, tok, rtok⟩)
  | .authorizationPending => .ok (interval, none)
  | .slowDown => .ok (interval + SLOW_DOWN_DELAY, none)
  | .expiredToken => .error .pendingAuthorizationExpired

/-- The `while True:` polling loop of `_poll_for_token`, as written:
each iteration first calls `_create_token_attempt`, returns the token if one
came back, and otherwise sleeps the (updated) interval before the next
iteration.  The loop ends when the script of `create_token` outcomes is
exhausted (`.ok none`: the engine would still be polling). -/
def pollLoop (startUrl region : String) (interval : Nat)
    (evs : List PollEvent) :
    List CreateTokenResult → Except PyError (Option (TokenT × List PollEvent))
  | [] => .ok none
  | r :: rest =>
    match createTokenAttempt startUrl region interval r with
    | .error e => .error e
    | .ok (_, some t) => .ok (some (t, evs))
    | .ok (i2, none) => pollLoop startUrl region i2 (evs ++ [.sleep i2]) rest

/-- `_poll_for_token` after registration/authorization: start from the
authorization's interval (default 5), make the single pre-prompt
`create_token` attempt, fire the on-pending-authorization callback (when one
is set), then enter the polling loop.  The returned event list records
callback firings and sleeps in order. -/
def poll_for_token (startUrl region : String) (authInterval : Option Nat)
    (hasCallback : Bool) (script : List CreateTokenResult) :
    Except PyError (Option (TokenT × List PollEvent)) :=
  let interval := authInterval.getD DEFAULT_INTERVAL
  match script with
  | [] => .ok none
  | r :: rest =>
    match createTokenAttempt startUrl region interval r with
    | .error e => .error e
    | .ok (_, some t) => .ok (some (t, []))
    | .ok (i2, none) =>
      let evs := if hasCallback then [PollEvent.pendingCallback] else []
      pollLoop startUrl region i2 evs rest

/-- The token cache, a string-keyed mapping. -/
abbrev TokenCache := List (String × TokenT)

/-- Mapping lookup (`cache[key]` / `key in cache`). -/
def cacheGet (cache : TokenCache) (key : String) : Option TokenT :=
  (cache.find? (fun e => e.1 == key)).map (fun e => e.2)

/-- Mapping store (`cache[key] = v`): replace in place, else append. -/
def cacheSet (cache : TokenCache) (key : String) (v : TokenT) : TokenCache :=
  if (cache.find? (fun e => e.1 == key)).isSome
  then cache.map (fun e => if e.1 == key then (key, v) else e)
  else cache ++ [(key, v)]

/-- Mapping delete (`del cache[key]`). -/
def cacheDel (cache : TokenCache) (key : String) : TokenCache :=
  cache.filter (fun e => !(e.1 == key))

/-- `SSOTokenFetcher._token_cache_key`: the hex SHA-1 of the session name
when one is given, otherwise of the start URL. -/
def token_cache_key (startUrl : String) (sessionName : Option String) : String :=
  sha1Hex (strBytes (sessionName.getD startUrl))

/-- `_token` / `fetch_token`: return the cached token when present and not
expired (unless `force_refresh`), otherwise run the device flow and write the
resulting token to the cache under the token cache key.  The result carries
the token, the observed events, and the cache after the call. -/
def fetch_token (cache : TokenCache) (startUrl region : String)
    (sessionName : Option String) (forceRefresh : Bool)
    (isExpiredF : TokenT → Bool) (authInterval : Option Nat)
    (hasCallback : Bool) (script : List CreateTokenResult) :
    Except PyError (Option (TokenT × List PollEvent × TokenCache)) :=
  let key := token_cache_key startUrl sessionName
  let doPoll : Except PyError (Option (TokenT × List PollEvent × TokenCache)) :=
    match poll_for_token startUrl region authInterval hasCallback script with
    | .error e => .error e
    | .ok none => .ok none
    | .ok (some (t, evs)) => .ok (some (t, evs, cacheSet cache key t))
  match (if forceRefresh then none else cacheGet cache key) with
  | some t => if isExpiredF t then doPoll else .ok (some (t, [], cache))
  | none => doPoll

/-- `SSOTokenFetcher.get_token_from_cache`. -/
def get_token_from_cache (cache : TokenCache) (startUrl : String)
    (sessionName : Option String) : Option TokenT :=
  cacheGet cache (token_cache_key startUrl sessionName)

/-- `SSOTokenFetcher.pop_token_from_cache`, as written.  Its first statement
is `cache_key = self._cache_key(start_url, session_name)`, but the class
defines no attribute `_cache_key` (the key method it defines, used by
`_token` and `get_token_from_cache` directly above it, is
`_token_cache_key`), so the attribute lookup raises `AttributeError` before
the cache is touched. -/
def pop_token_from_cache (_cache : TokenCache) (_startUrl : String)
    (_sessionName : Option String) : Except PyError (Option TokenT × TokenCache) :=
  Except.error (PyError.attributeError "SSOTokenFetcher._cache_key")

/-- The remainder of the `pop_token_from_cache` body (everything after the
`cache_key = …` line), run against the key that the class's actual key
method `_token_cache_key` computes: if the key is present, delete the entry
and return it, otherwise return `None`; no exception escapes. -/
def popTokenFromCacheBody (cache : TokenCache) (startUrl : String)
    (sessionName : Option String) : Option TokenT × TokenCache :=
  let key := token_cache_key startUrl sessionName
  match cacheGet cache key with
  | some t => (some t, cacheDel cache key)
  | none => (none, cache)

/-! ## `lib/aws_sso_lib/config.py`: session scanning and mismatch detection

`find_all_sessions` harvests sessions from the profile entries and the
named-session entries of the local configuration, deduplicating by session
name.  The botocore config loader is external: its `full_config` mapping is
supplied as data.  `parse_sso_registration_scopes` is external, so
registration scopes arrive already parsed.

One line is modeled with care: in `_validate_sessions_are_same`, after
computing the mismatched fields the code builds the diagnostic message with

```python
message = f"Session {s1.session_name}"
if s1.source:
    message += f" ({s1.source})"
messsage += f" and {s2.session_name}"
```

the third statement reads the never-bound variable `messsage`, so whenever
`bad_fields` is non-empty Python raises `NameError` instead of returning a
`MismatchedSession` descriptor. -/

/-- A `Source` provenance record (the optional parent chain is
diagnostics-only and elided). -/
structure SourceT where
  stype : String
  sname : String
deriving DecidableEq, Repr

/-- A discovered `Session`. -/
structure SessionT where
  session_name : String
  source : Option SourceT := none
  start_url : String
  region : String
  registration_scopes : Option (List String) := none
deriving DecidableEq, Repr

/-- A `MismatchedSession` descriptor. -/
structure MismatchedSessionT where
  mismatched_session : SessionT
  base_session : SessionT
  message : String
deriving DecidableEq, Repr

/-- `_validate_sessions_are_same(s1, s2)`: collect the fields on which the
two sessions disagree; with no disagreement return `None`; otherwise the
message-building code reads the unbound `messsage` and raises `NameError`
(so the `MismatchedSession` return is unreachable). -/
def validate_sessions_are_same (s1 s2 : SessionT) :
    Except PyError (Option MismatchedSessionT) :=
  if s1.session_name ≠ s2.session_name then
    .error (.valueError "Session names do not match")
  else
    let badFields :=
      (if s1.start_url ≠ s2.start_url then ["start_url"] else []) ++
      (if s1.region ≠ s2.region then ["region"] else []) ++
      (if s1.registration_scopes ≠ s2.registration_scopes then ["registration_scopes"] else [])
    if badFields.isEmpty then .ok none
    else .error (.nameError "messsage")

/-- A profile entry of the botocore `full_config` (each field may be
absent). -/
structure ProfileConfigT where
  sso_session : Option String := none
  sso_start_url : Option String := none
  sso_region : Option String := none
deriving DecidableEq, Repr

/-- A named-session entry of the botocore `full_config`. -/
structure SessionConfigT where
  sso_start_url : Option String := none
  sso_region : Option String := none
  sso_registration_scopes : Option (List String) := none
deriving DecidableEq, Repr

/-- The slice of botocore's `full_config` the scanner reads. -/
structure FullConfigT where
  profiles : List (String × ProfileConfigT)
  sso_sessions : List (String × SessionConfigT)
deriving DecidableEq, Repr

/-- Ordered-mapping lookup for the config sections. -/
def assocGet {α : Type} (l : List (String × α)) (k : String) : Option α :=
  (l.find? (fun e => e.1 == k)).map (fun e => e.2)

/-- `get_session_from_config_session(session_name, source)`: fail when the
section is missing or lacks `sso_start_url` / `sso_region` (empty strings
are falsy), else build the named session. -/
def get_session_from_config_session (cfg : FullConfigT) (sessionName : String)
    (_source : Option SourceT) : Except PyError SessionT :=
  match assocGet cfg.sso_sessions sessionName with
  | none => .error (.configSessionError
      ("Did not find config session " ++ sessionName))
  | some sc =>
    let missing :=
      (if optStrTruthy sc.sso_start_url then [] else ["sso_start_url"]) ++
      (if optStrTruthy sc.sso_region then [] else ["sso_region"])
    if !missing.isEmpty then
      .error (.configSessionError
        ("Config session " ++ sessionName ++ " is missing fields: " ++
          " ".intercalate missing))
    else
      .ok { session_name := sessionName
            source := some ⟨"config session", sessionName⟩
            start_url := sc.sso_start_url.getD ""
            region := sc.sso_region.getD ""
            registration_scopes := sc.sso_registration_scopes }

/-- `get_session_from_config_profile(profile_name, source,
skip_loading_referenced_sessions)`: a profile that references a named
session is skipped (when the flag is set) or resolved through the session
loader (its `ConfigSessionError` rewrapped as `ConfigProfileError`);
otherwise a profile with neither `sso_start_url` nor `sso_region` yields
nothing, a profile with only one of the two is malformed, and a full pair
yields an inline session named by its start URL. -/
def get_session_from_config_profile (cfg : FullConfigT) (profileName : String)
    (_source : Option SourceT) (skipReferenced : Bool) :
    Except PyError (Option SessionT) :=
  match assocGet cfg.profiles profileName with
  | none => .error (.configProfileError
      ("Did not find config profile " ++ profileName))
  | some pc =>
    match pc.sso_session with
    | some sessionName =>
      if skipReferenced then .ok none
      else
        match get_session_from_config_session cfg sessionName
            (some ⟨"config profile", profileName⟩) with
        | .error (.configSessionError msg) =>
          .error (.configProfileError
            ("Config profile " ++ profileName ++ " uses an invalid config session: " ++ msg))
        | .error e => .error e
        | .ok s => .ok (some s)
    | none =>
      if !optStrTruthy pc.sso_start_url && !optStrTruthy pc.sso_region then
        .ok none
      else if !optStrTruthy pc.sso_start_url then
        .error (.configProfileError
          ("Config profile " ++ profileName ++ " is missing fields: sso_start_url"))
      else if !optStrTruthy pc.sso_region then
        .error (.configProfileError
          ("Config profile " ++ profileName ++ " is missing fields: sso_region"))
      else
        .ok (some
          { session_name := pc.sso_start_url.getD ""
            source := some ⟨"config profile", profileName⟩
            start_url := pc.sso_start_url.getD ""
            region := pc.sso_region.getD "" })

/-- The `FindAllSessionsResult` record.  (In the code `mismatched_sessions`
is built as `defaultdict(default_factory=list)`, which — keyword arguments
being mapping entries — actually has no default factory and one junk entry
`"default_factory"`; since the only append into it sits after the `NameError`
line of `_validate_sessions_are_same`, it can never gain a real entry.) -/
structure FindAllSessionsResultT where
  unique_sessions : List SessionT
  all_sessions : List SessionT
  malformed_session_errors : List PyError
  mismatched_sessions : List (String × List MismatchedSessionT)
deriving DecidableEq, Repr

/-- The scanner's mutable state during `find_all_sessions`. -/
structure ScanState where
  uniqueSessions : List (String × SessionT)
  allSessions : List SessionT
  malformedErrors : List PyError
  mismatched : List (String × List MismatchedSessionT)
deriving DecidableEq, Repr

/-- The local `_add(s)` of `find_all_sessions`: first occurrence of a name
is recorded; a repeated name is checked by `_validate_sessions_are_same`,
whose exceptions (the `NameError` above among them) propagate out of the
scan uncaught; were a descriptor ever returned, it would be appended under
the session name. -/
def addSession (st : ScanState) (s : SessionT) : Except PyError ScanState :=
  match assocGet st.uniqueSessions s.session_name with
  | none =>
    .ok { st with
          uniqueSessions := st.uniqueSessions ++ [(s.session_name, s)]
          allSessions := st.allSessions ++ [s] }
  | some base =>
    match validate_sessions_are_same base s with
    | .error e => .error e
    | .ok none => .ok { st with allSessions := st.allSessions ++ [s] }
    | .ok (some m) =>
      .ok { st with
            mismatched :=
              match assocGet st.mismatched s.session_name with
              | some ms => st.mismatched.map (fun e =>
                  if e.1 == s.session_name then (e.1, ms ++ [m]) else e)
              | none => st.mismatched ++ [(s.session_name, [m])]
            allSessions := st.allSessions ++ [s] }

/-- Fold `addSession` over a list of harvested sessions. -/
def addSessions (st : ScanState) :
    List SessionT → Except PyError ScanState
  | [] => .ok st
  | s :: rest =>
    match addSession st s with
    | .error e => .error e
    | .ok st2 => addSessions st2 rest

/-- `find_all_sessions`: add the environment specifier's inline session when
one parses (`InlineSessionError`s are recorded, not raised), then every
profile entry (skipping profiles that reference named sessions;
`ConfigProfileError`s recorded), then every named-session entry
(`ConfigSessionError`s recorded).  Exceptions other than those three types —
the `NameError` from a detected mismatch in particular — abort the scan. -/
def find_all_sessions (specifierSession : Option SessionT)
    (cfg : FullConfigT) : Except PyError FindAllSessionsResultT := do
  let st0 : ScanState := ⟨[], [], [], []⟩
  let st1 ← match specifierSession with
    | none => pure st0
    | some s => addSession st0 s
  let st2 ← cfg.profiles.foldlM (fun (st : ScanState) entry =>
    match get_session_from_config_profile cfg entry.1 none true with
    | .error (.configProfileError msg) =>
      pure { st with malformedErrors := st.malformedErrors ++ [.configProfileError msg] }
    | .error e => throw e
    | .ok none => pure st
    | .ok (some s) => addSession st s) st1
  let st3 ← cfg.sso_sessions.foldlM (fun (st : ScanState) entry =>
    match get_session_from_config_session cfg entry.1 none with
    | .error (.configSessionError msg) =>
      pure { st with malformedErrors := st.malformedErrors ++ [.configSessionError msg] }
    | .error e => throw e
    | .ok s => addSession st s) st2
  pure ⟨st3.uniqueSessions.map (fun e => e.2), st3.allSessions,
        st3.malformedErrors, st3.mismatched⟩

/-- `FindAllSessionsResult.raise_for_mismatch(sessions)`: for each selected
session whose name has an entry in `mismatched_sessions`, the code evaluates
`self.mismatched_sessions[session_name].message` — but the mapping's values
are *lists* of descriptors, and Python lists have no attribute `message`, so
the first hit raises `AttributeError`; with no hit, nothing is raised. -/
def raise_for_mismatch (r : FindAllSessionsResultT)
    (sessions : List String) : Except PyError Unit :=
  if sessions.any (fun n => (assocGet r.mismatched_sessions n).isSome)
  then .error (.attributeError "list.message")
  else .ok ()

/-! ## Auxiliary definitions used by the statements and proofs -/

/-- The sleeps among a list of poll events, in order. -/
def sleepsOf (evs : List PollEvent) : List Nat :=
  evs.filterMap (fun e => match e with
    | .sleep n => some n
    | .pendingCallback => none)

/-- The element the `add_assignments_to_template` loop emits at global
position `k`, where `names` is the full resource-name sequence of the run:
the assignment's resource name paired with its resource, whose dependency is
`names[k - W]` when the window `W` is truthy and `k ≥ W`. -/
def elemSpec (W : Nat) (names : List String) (k : Nat) (a : AssignmentR) :
    String × AssignmentResource :=
  (a.get_resource_name,
   a.get_resource (if W ≠ 0 ∧ W ≤ k then some (names.getD (k - W) "") else none))

/-- The chunks of `allocate`, described directly: chunk `i` keeps, in input
order, exactly the assignments whose `chunkIndex` is `i`. -/
def chunkFilter (num : Nat) (asgns : List AssignmentR) : List (List AssignmentR) :=
  (List.range num).map (fun i => asgns.filter (fun a => a.chunkIndex num == i))

/-- The account-id inputs within `format_account_id`'s padding range: a
nonnegative number below `10¹²`, or a string of at most 12 decimal digits. -/
def validAccountInput : AccountIdInput → Prop
  | .num n => 0 ≤ n ∧ n < 10 ^ 12
  | .str s => s.length ≤ 12 ∧ s.toList.all (fun c => c.isDigit) = true

/-! # Theorems -/

/-- Claim C1.  The claim states that an assignment whose principal matches a
user-supplied entry with an equal, non-`None` type is included.  Evaluating
the principal iterator shows the opposite: with the single entry
`("GROUP", "p-123")`, the listed assignment `GROUP:p-123` is dropped, while
an entry whose type is the *wrong* one (`"USER"`) or `None` lets it through
— the `type_matches` test of `_get_principal_iterator` is
`principal[0] != principal_type`, accepting exactly the non-equal types. -/
theorem C1_principal_filter_eval :
    principalIterator [(some "GROUP", "p-123")] [("GROUP", "p-123")] = []
    ∧ principalIterator [(some "USER", "p-123")] [("GROUP", "p-123")]
        = [("GROUP", "p-123")]
    ∧ principalIterator [(none, "p-123")] [("GROUP", "p-123")]
        = [("GROUP", "p-123")] :=
  ⟨rfl, rfl, rfl⟩

/-- Claim C3.  One `fetch_token` run with authorization interval 5 and
`create_token` outcomes `AuthorizationPending`, `SlowDown`, success: the
pending-authorization callback fires exactly once and the returned token is
written to the cache under the token cache key, as the claim says — but the
observed sleeps are `[10]`, not `[5, 10]`: the polling loop as written calls
`create_token` first and sleeps *after* a failed attempt, so no sleep
separates the pre-prompt attempt from the first poll and the loop sleeps the
already-increased interval. -/
theorem C3_poll_flow_eval :
    fetch_token [] "https://start" "us-east-1" none false (fun _ => true)
        (some 5) true
        [.authorizationPending, .slowDown, .success "tok-123"]
      = .ok (some
          ({ startUrl := "https://start", region := "us-east-1",
             accessToken := "tok-123" },
           [PollEvent.pendingCallback, PollEvent.sleep 10],
           [(token_cache_key "https://start" none,
             { startUrl := "https://start", region := "us-east-1",
               accessToken := "tok-123" })]))
    ∧ sleepsOf [PollEvent.pendingCallback, PollEvent.sleep 10] = [10]
    ∧ [10] ≠ [5, 10] :=
  ⟨rfl, rfl, by decide⟩

/-- Claim C4.  Scanning a config whose profiles `P1` and `P2` both carry
start URL `https://u` (hence the same inline session name) but regions `R1`
and `R2` does not record a `MismatchedSession` descriptor: building the
descriptor's message reads the unbound variable `messsage`, so
`find_all_sessions` aborts with a `NameError`.  The same misspelled line
makes `_validate_sessions_are_same` raise instead of returning a
descriptor, and even on a hand-built result carrying a descriptor,
`raise_for_mismatch` raises `AttributeError` (`.message` on a list), not
`MismatchedSessionError`. -/
theorem C4_mismatch_scan_eval :
    find_all_sessions none
        ⟨[("P1", { sso_start_url := some "https://u", sso_region := some "R1" }),
          ("P2", { sso_start_url := some "https://u", sso_region := some "R2" })],
         []⟩
      = .error (.nameError "messsage")
    ∧ validate_sessions_are_same
        { session_name := "S", start_url := "https://u", region := "R1" }
        { session_name := "S", start_url := "https://u", region := "R2" }
      = .error (.nameError "messsage")
    ∧ raise_for_mismatch
        ⟨[{ session_name := "S", start_url := "https://u", region := "R1" }],
         [], [],
         [("S", [⟨{ session_name := "S", start_url := "https://u", region := "R2" },
                  { session_name := "S", start_url := "https://u", region := "R1" },
                  "msg"⟩])]⟩
        ["S"]
      = .error (.attributeError "list.message") :=
  ⟨rfl, rfl, rfl⟩

/-- Claim C7.  `pop_token_from_cache` never reaches the cache: its first
statement calls the nonexistent attribute `_cache_key`, so every call —
entry present or not — raises `AttributeError` instead of removing and
returning the entry.  The remainder of its body, run against the key the
class's actual `_token_cache_key` computes, would behave exactly as the
claim says: remove and return the entry, or return `None`. -/
theorem C7_pop_token_eval :
    pop_token_from_cache
        [(token_cache_key "https://start" (some "S"),
          { startUrl := "https://start", region := "us-east-1",
            accessToken := "tok-123" })]
        "https://start" (some "S")
      = .error (.attributeError "SSOTokenFetcher._cache_key")
    ∧ popTokenFromCacheBody
        [(token_cache_key "https://start" (some "S"),
          { startUrl := "https://start", region := "us-east-1",
            accessToken := "tok-123" })]
        "https://start" (some "S")
      = (some { startUrl := "https://start", region := "us-east-1",
                accessToken := "tok-123" }, [])
    ∧ popTokenFromCacheBody [] "https://start" (some "S") = (none, []) :=
  ⟨rfl, rfl, rfl⟩

/-- Claim C8.  A config whose only targets are recursive OUs (here
`ou-xyz1-abcd1234`, from which the loader's target collection produces a
real account target) is rejected by `validate_config` with
`"No targets specified"`: the target check reads only `config.ous` and
`config.accounts` and ignores `config.recursive_ous`, contradicting the
claim that recursive-OU-only configs pass validation. -/
theorem C8_validate_targets_eval :
    validate_config
        ⟨none, ["g-11111111"], [], ["ps-abc"], [], ["ou-xyz1-abcd1234"], []⟩
        ⟨"arn:aws:sso:::instance/ssoins-1111111111111111"⟩
      = .error "No targets specified"
    ∧ configTargets
        ⟨none, ["g-11111111"], [], ["ps-abc"], [], ["ou-xyz1-abcd1234"], []⟩
        (fun _ _ => ["123456789012"])
      = [⟨"AWS_ACCOUNT", "123456789012", none, some "ou-xyz1-abcd1234"⟩] :=
  ⟨rfl, rfl⟩

/-- Claim C9, counterexample.  `format_account_id` accepts a 13-digit
number unchanged: the normalized id is `"1234567890123"`, which has length
13 and so does not match `^[0-9]{12}$`. -/
theorem C9_format_account_id_counterexample :
    format_account_id (AccountIdInput.num 1234567890123) = "1234567890123"
    ∧ isAccountIdFormat (format_account_id (AccountIdInput.num 1234567890123))
        = false :=
  ⟨rfl, rfl⟩

/-- The effective-value properties hold of every `GenerationConfig` state,
whatever its private fields hold. -/
theorem genConfig_effective_props (s : GenerationConfigState) :
    1 ≤ s.max_resources_per_template
    ∧ 1 ≤ s.max_concurrent_assignments
    ∧ (s.maxResourcesPerTemplateRaw = none →
        s.max_resources_per_template = 500)
    ∧ (∀ v, s.maxResourcesPerTemplateRaw = some v → v < 1 →
        s.max_resources_per_template = 500)
    ∧ (s.maxConcurrentAssignmentsRaw = none →
        s.max_concurrent_assignments = 20)
    ∧ (∀ v, s.maxConcurrentAssignmentsRaw = some v → v < 1 →
        s.max_concurrent_assignments = 20) := by
  obtain ⟨mrpt, mca, maa, ncs, dsd⟩ := s
  unfold GenerationConfigState.max_resources_per_template
    GenerationConfigState.max_concurrent_assignments
    DEFAULT_MAX_RESOURCES_PER_TEMPLATE DEFAULT_MAX_CONCURRENT_ASSIGNMENTS
  cases mrpt <;> cases mca <;>
    refine ⟨?_, ?_, ?_, ?_, ?_, ?_⟩ <;>
    simp_all <;> split_ifs <;> omega

/-- Claim C10.  After any sequence of `set`/`load` operations starting from
a fresh `GenerationConfig`, the effective `max_resources_per_template` and
`max_concurrent_assignments` are at least 1, and a raw value that is unset
or below 1 (including 0) reads back as the default (500 resources per
template, 20 concurrent assignments): neither cap can be set to zero or
disabled. -/
theorem C10_generation_config_min (ops : List GCOp)
    (s : GenerationConfigState) (hs : s = ops.foldl applyGCOp genConfigInit) :
    1 ≤ s.max_resources_per_template
    ∧ 1 ≤ s.max_concurrent_assignments
    ∧ (s.maxResourcesPerTemplateRaw = none →
        s.max_resources_per_template = 500)
    ∧ (∀ v, s.maxResourcesPerTemplateRaw = some v → v < 1 →
        s.max_resources_per_template = 500)
    ∧ (s.maxConcurrentAssignmentsRaw = none →
        s.max_concurrent_assignments = 20)
    ∧ (∀ v, s.maxConcurrentAssignmentsRaw = some v → v < 1 →
        s.max_concurrent_assignments = 20) :=
  hs ▸ genConfig_effective_props _

/-- Claim C10, witness: one `set` writing `0` to both caps leaves both
effective values at their defaults. -/
theorem C10_generation_config_min_witness :
    1 ≤ (([⟨some 0, some 0, none, none, none, false⟩] : List GCOp).foldl
          applyGCOp genConfigInit).max_resources_per_template
    ∧ (([⟨some 0, some 0, none, none, none, false⟩] : List GCOp).foldl
          applyGCOp genConfigInit).max_resources_per_template = 500
    ∧ (([⟨some 0, some 0, none, none, none, false⟩] : List GCOp).foldl
          applyGCOp genConfigInit).max_concurrent_assignments = 20 := by
  have h := C10_generation_config_min
    [⟨some 0, some 0, none, none, none, false⟩] _ rfl
  exact ⟨h.1, h.2.2.2.1 0 rfl (by decide), h.2.2.2.2.2 0 rfl (by decide)⟩

/-- `getD` through `map` over `range`. -/
theorem getD_map_range {α : Type} (f : Nat → α) {n k : Nat} (d : α)
    (h : k < n) : ((List.range n).map f).getD k d = f k := by
  rw [List.getD_eq_getElem _ _ (by simpa using h)]
  simp

/-- An assignment's resource name contains the literal `"Assignment"`, so it
is never the empty (falsy) string. -/
theorem get_resource_name_ne_empty (a : AssignmentR) :
    a.get_resource_name ≠ "" := by
  intro h
  have h2 := congrArg String.length h
  rw [AssignmentR.get_resource_name, String.length_append,
    String.length_append] at h2
  have ht : assignmentNameTag.length = 10 := rfl
  have h0 : ("" : String).length = 0 := rfl
  omega

/-- Characterization of the `add_assignments_to_template` loop: running it
over `asgns` starting from `acc` appends, for each position, the element
`elemSpec` describes, with positions counted from `acc.length` and names
drawn from the full name sequence. -/
theorem addAssignAux_eq (W : Nat) (asgns : List AssignmentR) :
    ∀ acc, addAssignAux W acc asgns =
      acc ++ (List.range asgns.length).map (fun i =>
        elemSpec W
          (acc.map Prod.fst ++ asgns.map AssignmentR.get_resource_name)
          (acc.length + i) (asgns.getD i dfltAsgn)) := by
  induction asgns with
  | nil => intro acc; simp [addAssignAux]
  | cons a rest ih =>
    intro acc
    simp only [addAssignAux]
    rw [ih, List.append_assoc]
    congr 1
    rw [List.singleton_append, List.length_cons, List.range_succ_eq_map,
      List.map_cons, List.map_map]
    congr 1
    · show (a.get_resource_name, a.get_resource _)
        = elemSpec W _ (acc.length + 0) ((a :: rest).getD 0 dfltAsgn)
      simp only [List.getD_cons_zero, Nat.add_zero, elemSpec]
      congr 2
      split_ifs with hc
      · congr 1
        have hj : acc.length - W < acc.length := by omega
        rw [List.getD_append _ _ _ _ (by simpa using hj),
          List.getD_eq_getElem _ _ hj,
          List.getD_eq_getElem _ _ (by simpa using hj)]
        simp
      · rfl
    · apply List.map_congr_left
      intro i _
      show elemSpec W
          ((acc ++ [_]).map Prod.fst ++ rest.map AssignmentR.get_resource_name)
          ((acc ++ [_]).length + i) (rest.getD i dfltAsgn)
        = elemSpec W _ (acc.length + (i + 1)) ((a :: rest).getD (i + 1) dfltAsgn)
      rw [List.getD_cons_succ]
      congr 1
      · simp
      · simp [List.length_append]; omega

/-- Claim C2.  For every assignment list rendered into one template with an
effective window `W ≥ 1`, the `k`-th emitted assignment resource (0-indexed,
in emission order) has `DependsOn` equal to the resource name of the
`(k − W)`-th assignment when `k ≥ W`, and no `DependsOn` when `k < W`. -/
theorem C2_depends_on_window (asgns : List AssignmentR) (W k : Nat)
    (hW : 1 ≤ W) (hk : k < asgns.length) :
    ((add_assignments_to_template asgns W).getD k dfltPair).2.dependsOn
      = if W ≤ k
        then some (asgns.getD (k - W) dfltAsgn).get_resource_name
        else none := by
  unfold add_assignments_to_template
  rw [addAssignAux_eq]
  simp only [List.map_nil, List.nil_append, List.length_nil, Nat.zero_add]
  rw [getD_map_range _ _ hk]
  unfold elemSpec AssignmentR.get_resource
  by_cases hWk : W ≤ k
  · have hj : k - W < asgns.length := by omega
    have hname : (asgns.map AssignmentR.get_resource_name).getD (k - W) ""
        = (asgns.getD (k - W) dfltAsgn).get_resource_name := by
      rw [List.getD_eq_getElem _ _ (by simpa using hj),
        List.getD_eq_getElem _ _ hj]
      simp
    simp only [if_pos hWk, if_pos (And.intro (by omega : W ≠ 0) hWk), hname]
    rw [if_neg (get_resource_name_ne_empty _)]
  · simp [hWk, if_neg hWk]

/-- Claim C2, witness: three concrete assignments with window `W = 2`; the
assignment at position 2 depends on the resource name of the one at
position 0, and position 1 has no dependency. -/
theorem C2_depends_on_window_witness :
    ((add_assignments_to_template
        [⟨"arn:aws:sso:::instance/ssoins-1111111111111111", ⟨"GROUP", "g-1"⟩,
          "arn:aws:sso:::permissionSet/ssoins-1111111111111111/ps-a", ⟨"AWS_ACCOUNT", "111111111111", none, none⟩, none⟩,
         ⟨"arn:aws:sso:::instance/ssoins-1111111111111111", ⟨"GROUP", "g-2"⟩,
          "arn:aws:sso:::permissionSet/ssoins-1111111111111111/ps-a", ⟨"AWS_ACCOUNT", "111111111111", none, none⟩, none⟩,
         ⟨"arn:aws:sso:::instance/ssoins-1111111111111111", ⟨"GROUP", "g-3"⟩,
          "arn:aws:sso:::permissionSet/ssoins-1111111111111111/ps-a", ⟨"AWS_ACCOUNT", "111111111111", none, none⟩, none⟩]
        2).getD 2 dfltPair).2.dependsOn
      = some (AssignmentR.get_resource_name
          ⟨"arn:aws:sso:::instance/ssoins-1111111111111111", ⟨"GROUP", "g-1"⟩,
           "arn:aws:sso:::permissionSet/ssoins-1111111111111111/ps-a", ⟨"AWS_ACCOUNT", "111111111111", none, none⟩, none⟩)
    ∧ ((add_assignments_to_template
        [⟨"arn:aws:sso:::instance/ssoins-1111111111111111", ⟨"GROUP", "g-1"⟩,
          "arn:aws:sso:::permissionSet/ssoins-1111111111111111/ps-a", ⟨"AWS_ACCOUNT", "111111111111", none, none⟩, none⟩,
         ⟨"arn:aws:sso:::instance/ssoins-1111111111111111", ⟨"GROUP", "g-2"⟩,
          "arn:aws:sso:::permissionSet/ssoins-1111111111111111/ps-a", ⟨"AWS_ACCOUNT", "111111111111", none, none⟩, none⟩,
         ⟨"arn:aws:sso:::instance/ssoins-1111111111111111", ⟨"GROUP", "g-3"⟩,
          "arn:aws:sso:::permissionSet/ssoins-1111111111111111/ps-a", ⟨"AWS_ACCOUNT", "111111111111", none, none⟩, none⟩]
        2).getD 1 dfltPair).2.dependsOn = none := by
  refine ⟨?_, ?_⟩
  · have h := C2_depends_on_window
      [⟨"arn:aws:sso:::instance/ssoins-1111111111111111", ⟨"GROUP", "g-1"⟩,
        "arn:aws:sso:::permissionSet/ssoins-1111111111111111/ps-a", ⟨"AWS_ACCOUNT", "111111111111", none, none⟩, none⟩,
       ⟨"arn:aws:sso:::instance/ssoins-1111111111111111", ⟨"GROUP", "g-2"⟩,
        "arn:aws:sso:::permissionSet/ssoins-1111111111111111/ps-a", ⟨"AWS_ACCOUNT", "111111111111", none, none⟩, none⟩,
       ⟨"arn:aws:sso:::instance/ssoins-1111111111111111", ⟨"GROUP", "g-3"⟩,
        "arn:aws:sso:::permissionSet/ssoins-1111111111111111/ps-a", ⟨"AWS_ACCOUNT", "111111111111", none, none⟩, none⟩]
      2 2 (by decide) (by decide)
    simpa using h
  · have h := C2_depends_on_window
      [⟨"arn:aws:sso:::instance/ssoins-1111111111111111", ⟨"GROUP", "g-1"⟩,
        "arn:aws:sso:::permissionSet/ssoins-1111111111111111/ps-a", ⟨"AWS_ACCOUNT", "111111111111", none, none⟩, none⟩,
       ⟨"arn:aws:sso:::instance/ssoins-1111111111111111", ⟨"GROUP", "g-2"⟩,
        "arn:aws:sso:::permissionSet/ssoins-1111111111111111/ps-a", ⟨"AWS_ACCOUNT", "111111111111", none, none⟩, none⟩,
       ⟨"arn:aws:sso:::instance/ssoins-1111111111111111", ⟨"GROUP", "g-3"⟩,
        "arn:aws:sso:::permissionSet/ssoins-1111111111111111/ps-a", ⟨"AWS_ACCOUNT", "111111111111", none, none⟩, none⟩]
      2 1 (by decide) (by decide)
    simpa using h

/-- `allocate` computes exactly the per-index filters: chunk `i` holds, in
input order, the assignments whose `chunkIndex` is `i`. -/
theorem allocate_eq_chunkFilter (asgns : List AssignmentR) (num : Nat)
    (h : 0 < num) : allocate asgns num = chunkFilter num asgns := by
  induction asgns using List.reverseRecOn with
  | nil =>
    apply List.ext_getElem
    · simp [allocate, chunkFilter]
    · intro i h1 h2
      simp [allocate, chunkFilter]
  | append_singleton l a ihl =>
    unfold allocate at ihl ⊢
    rw [List.foldl_append, ihl, List.foldl_cons, List.foldl_nil]
    apply List.ext_getElem
    · simp [chunkFilter]
    · intro i h1 h2
      have hi : i < num := by simpa [chunkFilter] using h2
      have hjn : a.chunkIndex num < num := by
        unfold AssignmentR.chunkIndex
        exact Nat.mod_lt _ h
      rw [List.getElem_set]
      by_cases hij : a.chunkIndex num = i
      · subst hij
        rw [if_pos rfl]
        simp only [chunkFilter, List.getElem_map, List.getElem_range]
        rw [getD_map_range _ _ hjn, List.filter_append, List.filter_singleton]
        simp
      · rw [if_neg hij]
        simp only [chunkFilter, List.getElem_map, List.getElem_range]
        rw [List.filter_append, List.filter_singleton]
        have hb : (a.chunkIndex num == i) = false := by
          simp [hij]
        rw [hb]
        simp

/-- Summing `if j = i then c else 0` over `range n` picks out `c`. -/
theorem sum_map_range_ite (n j c : Nat) (h : j < n) :
    ((List.range n).map (fun i => if j = i then c else 0)).sum = c := by
  induction n with
  | zero => omega
  | succ n ihn =>
    rw [List.range_succ, List.map_append, List.sum_append]
    by_cases hj : j = n
    · subst hj
      have hz : ((List.range j).map (fun i => if j = i then c else 0)).sum = 0 := by
        apply List.sum_eq_zero
        intro x hx
        simp only [List.mem_map, List.mem_range] at hx
        obtain ⟨i, hi, rfl⟩ := hx
        rw [if_neg (by omega)]
      simp [hz]
    · have hjn : j < n := by omega
      rw [ihn hjn]
      simp [hj]

/-- Element counts through `filter`. -/
theorem count_filter_eq (a : AssignmentR) (l : List AssignmentR)
    (p : AssignmentR → Bool) :
    List.count a (l.filter p) = if p a then List.count a l else 0 := by
  by_cases hp : p a
  · rw [List.count_filter hp, if_pos hp]
  · rw [if_neg hp]
    apply List.count_eq_zero.mpr
    intro hmem
    exact hp ((List.mem_filter.mp hmem).2)

/-- The chunks of `allocate` are, taken together, a permutation of the
input. -/
theorem allocate_flatten_perm (asgns : List AssignmentR) (num : Nat)
    (h : 0 < num) : (allocate asgns num).flatten.Perm asgns := by
  rw [allocate_eq_chunkFilter _ _ h]
  apply List.perm_iff_count.mpr
  intro a
  rw [List.count_flatten, chunkFilter, List.map_map]
  have hstep : ∀ i ∈ List.range num,
      (List.count a ∘ fun i => asgns.filter (fun x => x.chunkIndex num == i)) i
        = if a.chunkIndex num = i then List.count a asgns else 0 := by
    intro i _
    simp only [Function.comp]
    rw [count_filter_eq]
    simp [beq_iff_eq]
  rw [List.map_congr_left hstep]
  have hjn : a.chunkIndex num < num := by
    unfold AssignmentR.chunkIndex
    exact Nat.mod_lt _ h
  exact sum_map_range_ite num _ _ hjn

/-- Claim C6.  For every assignment list and child-stack count `N > 0`:
`allocate` produces `N` chunks; chunk `i` holds, in input order, exactly the
assignments whose MD5 fingerprint, read big-endian, is `i` mod `N`; each
assignment lands in the chunk of its index and in no other; the chunks
together are a permutation of the input; and `resolve_templates` with `N`
child stacks (under its capacity checks) puts every assignment chunk into a
child template while the permission sets all stay in the parent, whose own
assignment list is empty. -/
theorem C6_allocate_partition (asgns : List AssignmentR) (psets : List PermSetR)
    (N M P : Nat) (hN : 0 < N) (hfit : asgns.length ≤ N * M)
    (hps : psNumResources psets = 0 ∨ psNumResources psets + P ≤ M) :
    (allocate asgns N).length = N
    ∧ (∀ i, i < N → (allocate asgns N).getD i []
        = asgns.filter (fun a => a.chunkIndex N == i))
    ∧ (∀ a, a ∈ asgns → a.chunkIndex N < N
        ∧ a ∈ (allocate asgns N).getD (a.chunkIndex N) []
        ∧ ∀ i, i < N → i ≠ a.chunkIndex N → a ∉ (allocate asgns N).getD i [])
    ∧ (allocate asgns N).flatten.Perm asgns
    ∧ resolve_templates asgns psets (some N) M P
        = .ok ⟨[], psets, allocate asgns N⟩ := by
  have hchar := allocate_eq_chunkFilter asgns N hN
  refine ⟨?_, ?_, ?_, allocate_flatten_perm asgns N hN, ?_⟩
  · rw [hchar]; simp [chunkFilter]
  · intro i hi
    rw [hchar, chunkFilter, getD_map_range _ _ hi]
  · intro a ha
    have hlt : a.chunkIndex N < N := by
      unfold AssignmentR.chunkIndex
      exact Nat.mod_lt _ hN
    refine ⟨hlt, ?_, ?_⟩
    · rw [hchar, chunkFilter, getD_map_range _ _ hlt]
      exact List.mem_filter.mpr ⟨ha, by simp⟩
    · intro i hi hne
      rw [hchar, chunkFilter, getD_map_range _ _ hi]
      intro hmem
      have hpa := (List.mem_filter.mp hmem).2
      simp only [beq_iff_eq] at hpa
      exact hne hpa.symm
  · obtain ⟨n, rfl⟩ : ∃ n, N = n + 1 := ⟨N - 1, by omega⟩
    simp only [resolve_templates]
    rw [if_neg (by omega : ¬ ((n + 1) * M < asgns.length))]
    show (if psNumResources psets ≠ 0 ∧ psNumResources psets + P > M then
          (Except.error "Too many permission sets to fit into template" :
            Except String ParentTemplateR)
        else Except.ok ⟨[], psets, allocate asgns (n + 1)⟩)
      = Except.ok ⟨[], psets, allocate asgns (n + 1)⟩
    rw [if_neg (by
      intro hc
      rcases hps with h | h <;> omega)]

/-- Claim C6, witness: two concrete assignments split over two child stacks
with capacity 500 and one resource-form permission set. -/
theorem C6_allocate_partition_witness :
    (allocate
      [⟨"arn:aws:sso:::instance/ssoins-1111111111111111", ⟨"GROUP", "g-1"⟩,
        "arn:aws:sso:::permissionSet/ssoins-1111111111111111/ps-a", ⟨"AWS_ACCOUNT", "111111111111", none, none⟩, none⟩,
       ⟨"arn:aws:sso:::instance/ssoins-1111111111111111", ⟨"USER", "u-1"⟩,
        "arn:aws:sso:::permissionSet/ssoins-1111111111111111/ps-a", ⟨"AWS_ACCOUNT", "111111111111", none, none⟩, none⟩]
      2).length = 2
    ∧ resolve_templates
        [⟨"arn:aws:sso:::instance/ssoins-1111111111111111", ⟨"GROUP", "g-1"⟩,
          "arn:aws:sso:::permissionSet/ssoins-1111111111111111/ps-a", ⟨"AWS_ACCOUNT", "111111111111", none, none⟩, none⟩,
         ⟨"arn:aws:sso:::instance/ssoins-1111111111111111", ⟨"USER", "u-1"⟩,
          "arn:aws:sso:::permissionSet/ssoins-1111111111111111/ps-a", ⟨"AWS_ACCOUNT", "111111111111", none, none⟩, none⟩]
        [⟨PSType.resource, "PS"⟩] (some 2) 500 0
      = .ok ⟨[], [⟨PSType.resource, "PS"⟩],
          allocate
            [⟨"arn:aws:sso:::instance/ssoins-1111111111111111", ⟨"GROUP", "g-1"⟩,
              "arn:aws:sso:::permissionSet/ssoins-1111111111111111/ps-a", ⟨"AWS_ACCOUNT", "111111111111", none, none⟩, none⟩,
             ⟨"arn:aws:sso:::instance/ssoins-1111111111111111", ⟨"USER", "u-1"⟩,
              "arn:aws:sso:::permissionSet/ssoins-1111111111111111/ps-a", ⟨"AWS_ACCOUNT", "111111111111", none, none⟩, none⟩]
            2⟩ := by
  have h := C6_allocate_partition
    [⟨"arn:aws:sso:::instance/ssoins-1111111111111111", ⟨"GROUP", "g-1"⟩,
      "arn:aws:sso:::permissionSet/ssoins-1111111111111111/ps-a", ⟨"AWS_ACCOUNT", "111111111111", none, none⟩, none⟩,
     ⟨"arn:aws:sso:::instance/ssoins-1111111111111111", ⟨"USER", "u-1"⟩,
      "arn:aws:sso:::permissionSet/ssoins-1111111111111111/ps-a", ⟨"AWS_ACCOUNT", "111111111111", none, none⟩, none⟩]
    [⟨PSType.resource, "PS"⟩] 2 500 0 (by decide) (by decide)
    (Or.inr (by decide))
  exact ⟨h.1, h.2.2.2.2⟩

/-- Claim C5.  Every assignment's template resource name is the optional
resource-name prefix, then `"Assignment"`, then the first 6 hex characters
(uppercased) of the MD5 of the concatenation of the hash keys of its
instance, principal, permission set and target; and the name is a pure
function of those components: two assignments agreeing on them (and on the
run's prefix) always receive the same resource name. -/
theorem C5_assignment_resource_name (a b : AssignmentR)
    (hi : a.instanceArn = b.instanceArn) (hp : a.principal = b.principal)
    (hs : a.permissionSetArn = b.permissionSetArn) (ht : a.target = b.target)
    (hx : a.rnPfx = b.rnPfx) :
    a.get_resource_name
      = (a.rnPfx.getD "") ++ "Assignment" ++
        strUpper (strTake (md5Hex (get_hash_key a.instanceArn ++
          a.principal.hash_key ++ get_hash_key a.permissionSetArn ++
          a.target.hash_key)) 6)
    ∧ a.get_resource_name = b.get_resource_name := by
  constructor
  · rfl
  · unfold AssignmentR.get_resource_name AssignmentR.get_hash
    rw [hi, hp, hs, ht, hx]

/-- Claim C5, witness: a concrete assignment's resource name evaluates to
the claimed formula and collapses with a duplicate built from the same
components. -/
theorem C5_assignment_resource_name_witness :
    AssignmentR.get_resource_name
        ⟨"arn:aws:sso:::instance/ssoins-1111111111111111", ⟨"GROUP", "g-1"⟩,
         "arn:aws:sso:::permissionSet/ssoins-1111111111111111/ps-a",
         ⟨"AWS_ACCOUNT", "111111111111", none, none⟩, some "Pfx"⟩
      = ((some "Pfx").getD "") ++ "Assignment" ++
        strUpper (strTake (md5Hex
          (get_hash_key "arn:aws:sso:::instance/ssoins-1111111111111111" ++
          PrincipalR.hash_key ⟨"GROUP", "g-1"⟩ ++
          get_hash_key "arn:aws:sso:::permissionSet/ssoins-1111111111111111/ps-a" ++
          TargetR.hash_key ⟨"AWS_ACCOUNT", "111111111111", none, none⟩)) 6)
    ∧ AssignmentR.get_resource_name
        ⟨"arn:aws:sso:::instance/ssoins-1111111111111111", ⟨"GROUP", "g-1"⟩,
         "arn:aws:sso:::permissionSet/ssoins-1111111111111111/ps-a",
         ⟨"AWS_ACCOUNT", "111111111111", none, none⟩, some "Pfx"⟩
      = AssignmentR.get_resource_name
        ⟨"arn:aws:sso:::instance/ssoins-1111111111111111", ⟨"GROUP", "g-1"⟩,
         "arn:aws:sso:::permissionSet/ssoins-1111111111111111/ps-a",
         ⟨"AWS_ACCOUNT", "111111111111", none, none⟩, some "Pfx"⟩
    ∧ AssignmentR.get_resource_name
        ⟨"arn:aws:sso:::instance/ssoins-1111111111111111", ⟨"GROUP", "g-1"⟩,
         "arn:aws:sso:::permissionSet/ssoins-1111111111111111/ps-a",
         ⟨"AWS_ACCOUNT", "111111111111", none, none⟩, some "Pfx"⟩
      = "PfxAssignment27ACD9" := by
  have h := C5_assignment_resource_name
    ⟨"arn:aws:sso:::instance/ssoins-1111111111111111", ⟨"GROUP", "g-1"⟩,
     "arn:aws:sso:::permissionSet/ssoins-1111111111111111/ps-a",
     ⟨"AWS_ACCOUNT", "111111111111", none, none⟩, some "Pfx"⟩
    ⟨"arn:aws:sso:::instance/ssoins-1111111111111111", ⟨"GROUP", "g-1"⟩,
     "arn:aws:sso:::permissionSet/ssoins-1111111111111111/ps-a",
     ⟨"AWS_ACCOUNT", "111111111111", none, none⟩, some "Pfx"⟩
    rfl rfl rfl rfl rfl
  exact ⟨h.1, h.2, by rfl⟩

/-- `Nat.digitChar` of a value below 10 is a decimal digit. -/
theorem digitChar_isDigit (d : Nat) (h : d < 10) :
    (Nat.digitChar d).isDigit = true := by
  interval_cases d <;> decide

/-- Every character of the decimal rendering is a digit. -/
theorem decDigitsFuel_all_digits :
    ∀ fuel n, ∀ c ∈ decDigitsFuel fuel n, c.isDigit = true := by
  intro fuel
  induction fuel with
  | zero => intro n c hc; simp [decDigitsFuel] at hc
  | succ fuel ih =>
    intro n c hc
    rw [decDigitsFuel] at hc
    by_cases h : n < 10
    · rw [if_pos h] at hc
      simp only [List.mem_singleton] at hc
      subst hc
      exact digitChar_isDigit n h
    · rw [if_neg h] at hc
      rw [List.mem_append] at hc
      rcases hc with hc | hc
      · exact ih _ c hc
      · simp only [List.mem_singleton] at hc
        subst hc
        exact digitChar_isDigit _ (Nat.mod_lt _ (by norm_num))

/-- A number below `10 ^ k` (with `k ≥ 1`) renders on at most `k` digits. -/
theorem decDigitsFuel_length_le :
    ∀ fuel k n, 1 ≤ k → n < 10 ^ k → (decDigitsFuel fuel n).length ≤ k := by
  intro fuel
  induction fuel with
  | zero => intro k n hk hn; simp [decDigitsFuel]
  | succ fuel ih =>
    intro k n hk hn
    rw [decDigitsFuel]
    by_cases h : n < 10
    · rw [if_pos h]; simpa using hk
    · rw [if_neg h]
      rw [List.length_append]
      have hk2 : 2 ≤ k := by
        by_contra hlt
        have hk1 : k = 1 := by omega
        subst hk1
        rw [pow_one] at hn
        omega
      have hdiv : n / 10 < 10 ^ (k - 1) := by
        rw [Nat.div_lt_iff_lt_mul (by norm_num)]
        calc n < 10 ^ k := hn
          _ = 10 ^ (k - 1) * 10 := by
              rw [← pow_succ]
              congr 1
              omega
      have hlen := ih (k - 1) (n / 10) (by omega) hdiv
      simp only [List.length_singleton]
      omega

/-- Padding a string of at most 12 digits to width 12 yields exactly the
`^[0-9]{12}$` shape (the final `if … rjust` step of `format_account_id`). -/
theorem pad_step_ok (s : String) (hlen : s.length ≤ 12)
    (hdig : s.toList.all (fun c => c.isDigit) = true) :
    isAccountIdFormat (if s.length < 12 then rjustZero 12 s else s) = true := by
  by_cases h : s.length < 12
  · rw [if_pos h]
    unfold rjustZero
    rw [if_pos h]
    unfold isAccountIdFormat
    have hdata : (String.mk (List.replicate (12 - s.length) '0') ++ s).toList
        = List.replicate (12 - s.length) '0' ++ s.toList := by
      rw [show ∀ t : String, t.toList = t.data from fun _ => rfl]
      rw [String.data_append]
      rfl
    have hlen2 : (String.mk (List.replicate (12 - s.length) '0') ++ s).length = 12 := by
      rw [String.length_append]
      have hml : (String.mk (List.replicate (12 - s.length) '0')).length
          = 12 - s.length := by
        show (List.replicate (12 - s.length) '0').length = 12 - s.length
        exact List.length_replicate _ _
      omega
    rw [hlen2, hdata]
    simp only [beq_self_eq_true, Bool.true_and, List.all_append, hdig,
      Bool.and_true]
    apply List.all_eq_true.mpr
    intro c hc
    rw [List.eq_of_mem_replicate hc]
    rfl
  · rw [if_neg h]
    unfold isAccountIdFormat
    have h12 : s.length = 12 := by omega
    rw [h12]
    simp only [beq_self_eq_true, Bool.true_and]
    exact hdig

/-- Claim C9, amended.  For every account id in `format_account_id`'s
padding range — a nonnegative number below `10¹²`, or a string of at most 12
decimal digits — the normalized account id matches `^[0-9]{12}$`.  (Inputs
outside that range, e.g. 13-digit numbers, pass through unvalidated: see the
counterexample.) -/
theorem C9_format_account_id_amended (x : AccountIdInput)
    (h : validAccountInput x) :
    isAccountIdFormat (format_account_id x) = true := by
  cases x with
  | num n =>
    have hval : 0 ≤ n ∧ n < 10 ^ 12 := h
    obtain ⟨h0, h12⟩ := hval
    have hs : pyStrOfInt n = pyStrOfNat n.toNat := by
      unfold pyStrOfInt
      rw [if_neg (by omega)]
    show isAccountIdFormat
      (if (pyStrOfInt n).length < 12 then rjustZero 12 (pyStrOfInt n)
       else pyStrOfInt n) = true
    rw [hs]
    apply pad_step_ok
    · have hlt : n.toNat < 10 ^ 12 := by
        have hpow : (10 : Int) ^ 12 = 1000000000000 := by norm_num
        rw [hpow] at h12
        omega
      have := decDigitsFuel_length_le (n.toNat + 1) 12 n.toNat (by omega) hlt
      simpa [pyStrOfNat, String.length] using this
    · apply List.all_eq_true.mpr
      intro c hc
      exact decDigitsFuel_all_digits _ _ c hc
  | str s =>
    have hval : s.length ≤ 12 ∧ s.toList.all (fun c => c.isDigit) = true := h
    show isAccountIdFormat
      (if s.length < 12 then rjustZero 12 s else s) = true
    exact pad_step_ok s hval.1 hval.2

/-- Claim C9, witness: the number `123` normalizes to `"000000000123"`,
which matches `^[0-9]{12}$`. -/
theorem C9_format_account_id_amended_witness :
    validAccountInput (AccountIdInput.num 123)
    ∧ isAccountIdFormat (format_account_id (AccountIdInput.num 123)) = true
    ∧ format_account_id (AccountIdInput.num 123) = "000000000123" :=
  ⟨⟨by norm_num, by norm_num⟩,
   C9_format_account_id_amended (AccountIdInput.num 123)
     ⟨by norm_num, by norm_num⟩,
   by rfl⟩

end AwsSsoUtil
